import Mathlib

/-
Formal model of the breathes hook runner (src/hooks.rs): the Language
enumeration with its Display and From<String> conversions, the static hook
catalog, the verify execution engine, the detect filesystem probe and the
run_hooks orchestrator, together with proofs of the specified properties.
Filesystem and subprocess effects are modelled by explicit environments:
an Env records which directory and log-file creations succeed and the exit
outcome of each spawned hook command, and a DetectEnv records which paths
are regular files and what the glob expansion of a pattern returns.
-/

set_option autoImplicit false

namespace Breathes

/-- Detection pattern constants, verbatim from src/hooks.rs. -/
def CS_PROJ : String := "*.csproj"

def MAVEN_POM : String := "pom.xml"

def RUST_FILE : String := "Cargo.toml"

def GO_FILE : String := "go.mod"

def PHP_FILE : String := "composer.json"

def NODE_FILE : String := "package.json"

def CMAKE_FILE : String := "CMakeLists.txt"

def ELIXIR_FILE : String := "mix.exs"

def RUBY_FILE : String := "Gemfile"

def DART_FILE : String := "pubspec.yaml"

def KOTLIN_FILE : String := "settings.gradle.kts"

def GRADLE_FILE : String := "settings.gradle"

def SWIFT_FILE : String := "Package.swift"

def PYTHON_FILE : String := "requirements.txt"

def TYPESCRIPT_FILE : String := "tsconfig.json"

def HASKELL_FILE : String := "*.cabal"

def D_FILE : String := "dub.json"

/-- The Language enumeration of src/hooks.rs, one constructor per variant. -/
inductive Language where
  | Unknown
  | R
  | Javascript
  | Typescript
  | Haskell
  | D
  | Rust
  | Python
  | Go
  | Php
  | Ruby
  | CMake
  | CSharp
  | Maven
  | Kotlin
  | Gradle
  | Swift
  | Dart
  | Elixir
  deriving DecidableEq, Repr

/-- Display for Language (impl Display for Language in src/hooks.rs). -/
def Language.display : Language → String
  | Language.Javascript => "Javascript"
  | Language.Typescript => "Typescript"
  | Language.Rust => "Rust"
  | Language.Python => "Python"
  | Language.Go => "Go"
  | Language.Php => "Php"
  | Language.Ruby => "Ruby"
  | Language.CMake => "CMake"
  | Language.CSharp => "CSharp"
  | Language.Maven => "Maven"
  | Language.Kotlin => "Kotlin"
  | Language.Gradle => "Gradle"
  | Language.Swift => "Swift"
  | Language.Dart => "Dart"
  | Language.Elixir => "Elixir"
  | Language.D => "D"
  | Language.Unknown => "Unknown"
  | Language.Haskell => "Haskell"
  | Language.R => "R"

/-- From<String> for Language: the chain of equality tests of src/hooks.rs,
in source order, with the Unknown fallback. -/
def Language.fromString (value : String) : Language :=
  if value = "Javascript" then Language.Javascript
  else if value = "Typescript" then Language.Typescript
  else if value = "Rust" then Language.Rust
  else if value = "Python" then Language.Python
  else if value = "Go" then Language.Go
  else if value = "Php" then Language.Php
  else if value = "Ruby" then Language.Ruby
  else if value = "CMake" then Language.CMake
  else if value = "CSharp" then Language.CSharp
  else if value = "Maven" then Language.Maven
  else if value = "Kotlin" then Language.Kotlin
  else if value = "Gradle" then Language.Gradle
  else if value = "Swift" then Language.Swift
  else if value = "Dart" then Language.Dart
  else if value = "Elixir" then Language.Elixir
  else if value = "D" then Language.D
  else if value = "Haskell" then Language.Haskell
  else Language.Unknown

/-- The LANGUAGES detection registry of src/hooks.rs, in declaration order. -/
def LANGUAGES : List (Language × String) :=
  [(Language.Rust, RUST_FILE),
   (Language.Typescript, TYPESCRIPT_FILE),
   (Language.Haskell, HASKELL_FILE),
   (Language.Javascript, NODE_FILE),
   (Language.CSharp, CS_PROJ),
   (Language.Maven, MAVEN_POM),
   (Language.Go, GO_FILE),
   (Language.Ruby, RUBY_FILE),
   (Language.Dart, DART_FILE),
   (Language.Gradle, GRADLE_FILE),
   (Language.Kotlin, KOTLIN_FILE),
   (Language.Swift, SWIFT_FILE),
   (Language.Php, PHP_FILE),
   (Language.CMake, CMAKE_FILE),
   (Language.Elixir, ELIXIR_FILE),
   (Language.Python, PYTHON_FILE)]

/-- A verification hook: the Hook struct of src/hooks.rs. -/
structure Hook where
  language : Language
  description : String
  success : String
  failure : String
  file : String
  command : String
  deriving DecidableEq, Repr

/-- Hook::d pushes the D hooks onto the vector. -/
def Hook.d (hooks : List Hook) : List Hook :=
  hooks ++
    [{ language := Language.D, description := "Building your project",
       success := "Build successful", failure := "Build failed",
       file := "build.log", command := "dub build" },
     { language := Language.D, description := "Testing your project",
       success := "Tests passed", failure := "Tests failed",
       file := "test.log", command := "dub test" }]

/-- Hook::haskell pushes the Haskell hooks onto the vector. -/
def Hook.haskell (hooks : List Hook) : List Hook :=
  hooks ++
    [{ language := Language.Haskell,
       description := "Checking for outdated packages in your project",
       success := "No outdated packages found", failure := "Outdated packages found",
       file := "outdated.log", command := "cabal outdated" },
     { language := Language.Haskell,
       description := "Running tests for your Haskell project",
       success := "Tests passed", failure := "Tests failed",
       file := "test.log", command := "cabal test" }]

/-- Hook::javascript pushes the four Javascript hooks onto the vector. -/
def Hook.javascript (hooks : List Hook) : List Hook :=
  hooks ++
    [{ language := Language.Javascript,
       description := "Checking for outdated packages in your project",
       success := "No outdated packages found", failure := "Outdated packages found",
       file := "outdated.log", command := "npm outdated" },
     { language := Language.Javascript, description := "Testing your project",
       success := "Tests passed", failure := "Tests failed",
       file := "test.log", command := "npm run test" },
     { language := Language.Javascript, description := "Auditing your project",
       success := "No vulnerabilities found", failure := "Vulnerabilities found",
       file := "audit.log", command := "npm audit" },
     { language := Language.Javascript,
       description := "Checking for code formatting in your project",
       success := "Linting passed", failure := "Lint error found",
       file := "lint.log", command := "npm run lint" }]

/-- Hook::typescript first delegates to Hook::javascript on the same vector,
then pushes the two Typescript hooks. -/
def Hook.typescript (hooks : List Hook) : List Hook :=
  Hook.javascript hooks ++
    [{ language := Language.Typescript, description := "Checking for types",
       success := "Types are valid", failure := "Type errors found",
       file := "types.log", command := "npx tsc --noEmit" },
     { language := Language.Typescript,
       description := "Checking for code formatting in your project",
       success := "Code is formatted correctly", failure := "Code formatting issues found",
       file := "fmt.log", command := "npx prettier --check ." }]

/-- Hook::maven pushes the Maven hooks onto the vector. -/
def Hook.maven (hooks : List Hook) : List Hook :=
  hooks ++
    [{ language := Language.Maven, description := "Checking for security vulnerabilities",
       success := "No vulnerabilities found", failure := "Vulnerabilities found",
       file := "audit.log", command := "mvn dependency-check:check" },
     { language := Language.Maven, description := "Running tests for your Maven project",
       success := "Tests passed", failure := "Tests failed",
       file := "test.log", command := "mvn test" },
     { language := Language.Maven,
       description := "Checking for outdated packages in your project",
       success := "No outdated packages found", failure := "Outdated packages found",
       file := "outdated.log", command := "mvn versions:display-dependency-updates" }]

/-- Hook::gradle pushes the Gradle hooks; the command depends on the host
operating system family (cfg windows), modelled by the windows flag. -/
def Hook.gradle (windows : Bool) (hooks : List Hook) : List Hook :=
  if windows then
    hooks ++
      [{ language := Language.Gradle, description := "Building your application",
         success := "Build successful", failure := "Build failed",
         file := "build.log", command := "gradlew.bat build" },
       { language := Language.Gradle, description := "Running unit test",
         success := "Test passed", failure := "Test failed",
         file := "test.log", command := "gradlew.bat test" }]
  else
    hooks ++
      [{ language := Language.Gradle, description := "Building your application",
         success := "Build successful", failure := "Build failed",
         file := "build.log", command := "gradlew build" },
       { language := Language.Gradle, description := "Running unit test",
         success := "Test passed", failure := "Test failed",
         file := "test.log", command := "gradlew test" }]

/-- Hook::rust pushes the eight Rust hooks onto the vector. -/
def Hook.rust (hooks : List Hook) : List Hook :=
  hooks ++
    [{ language := Language.Rust, description := "Checking the configuration",
       success := "Project is valid", failure := "Project not valid",
       file := "project.log", command := "cargo verify-project" },
     { language := Language.Rust, description := "Checking build capability",
       success := "Can build the project", failure := "Cargo check detect failure",
       file := "check.log", command := "cargo check" },
     { language := Language.Rust, description := "Checking for security vulnerabilities",
       success := "No vulnerabilities found", failure := "Vulnerabilities found",
       file := "audit.log", command := "cargo audit" },
     { language := Language.Rust,
       description := "Checks for formatting issues in your Rust code",
       success := "Code format standard respected",
       failure := "Code format standard not respected",
       file := "fmt.log", command := "cargo fmt --check" },
     { language := Language.Rust,
       description := "Checks for linting issues and suggests code improvements",
       success := "No warnings found", failure := "Warnings found",
       file := "clippy.log",
       command := "cargo clippy -- -D clippy::all -W warnings -D clippy::pedantic -D clippy::nursery -A clippy::multiple_crate_versions" },
     { language := Language.Rust, description := "Testing your project",
       success := "Tests passed", failure := "Tests failed",
       file := "test.log", command := "cargo test --no-fail-fast" },
     { language := Language.Rust,
       description := "Generating documentation for your project",
       success := "Documentation generated", failure := "Failed to generate documentation",
       file := "doc.log", command := "cargo doc --no-deps --document-private-items" },
     { language := Language.Rust,
       description := "Checking for outdated packages in your project",
       success := "No outdated packages found", failure := "Outdated packages found",
       file := "outdated.log", command := "cargo outdated" }]

/-- Hook::python pushes the Python hooks onto the vector. -/
def Hook.python (hooks : List Hook) : List Hook :=
  hooks ++
    [{ language := Language.Python,
       description := "Checking for outdated packages in your project",
       success := "No outdated packages found", failure := "Outdated packages found",
       file := "outdated.log", command := "pip list --outdated" },
     { language := Language.Python, description := "Checking for security vulnerabilities",
       success := "No vulnerabilities found", failure := "Vulnerabilities found",
       file := "audit.log", command := "pip audit" }]

/-- Hook::go pushes the Go hooks onto the vector. -/
def Hook.go (hooks : List Hook) : List Hook :=
  hooks ++
    [{ language := Language.Go, description := "Testing your project",
       success := "Tests passed", failure := "Tests failed",
       file := "test.log", command := "go test -v" },
     { language := Language.Go, description := "Checking for security vulnerabilities",
       success := "No vulnerabilities found", failure := "Vulnerabilities found",
       file := "audit.log", command := "go list -u -m -json all" }]

/-- Hook::php pushes the PHP hooks onto the vector. -/
def Hook.php (hooks : List Hook) : List Hook :=
  hooks ++
    [{ language := Language.Php, description := "Checking platform requirements",
       success := "All requirements are met", failure := "Missing requirements found",
       file := "reqs.log", command := "composer check-platform-reqs" },
     { language := Language.Php, description := "Checking for security vulnerabilities",
       success := "No vulnerabilities found", failure := "Vulnerabilities found",
       file := "audit.log", command := "composer audit" },
     { language := Language.Php, description := "Checking outdated packages",
       success := "No outdated packages found", failure := "Outdated packages found",
       file := "outdated.log", command := "composer outdated" },
     { language := Language.Php, description := "Running tests for your PHP project",
       success := "Tests passed", failure := "Tests failed",
       file := "test.log", command := "composer run test" }]

/-- Hook::ruby pushes the Ruby hooks onto the vector. -/
def Hook.ruby (hooks : List Hook) : List Hook :=
  hooks ++
    [{ language := Language.Ruby, description := "Checking for outdated gems",
       success := "No outdated gems found", failure := "Outdated gems found",
       file := "outdated.log", command := "bundle outdated" },
     { language := Language.Ruby, description := "Checking for security vulnerabilities",
       success := "No vulnerabilities found", failure := "Vulnerabilities found",
       file := "audit.log", command := "bundle audit" },
     { language := Language.Ruby, description := "Running tests for your Ruby project",
       success := "Tests passed", failure := "Tests failed",
       file := "test.log", command := "bundle exec rspec" }]

/-- Hook::cmake pushes the CMake hooks onto the vector. -/
def Hook.cmake (hooks : List Hook) : List Hook :=
  hooks ++
    [{ language := Language.CMake, description := "Generating build configuration",
       success := "Configuration generated successfully", failure := "Configuration failed",
       file := "cmake.log", command := "cmake -S . -B build" },
     { language := Language.CMake, description := "Compiling the project",
       success := "Build successful", failure := "Build failed",
       file := "build.log", command := "cmake --build build" },
     { language := Language.CMake, description := "Running tests",
       success := "All tests passed", failure := "Tests failed",
       file := "test.log", command := "ctest --test-dir build --output-on-failure" }]

/-- Hook::csharp pushes the CSharp hooks onto the vector. -/
def Hook.csharp (hooks : List Hook) : List Hook :=
  hooks ++
    [{ language := Language.CSharp, description := "Checking for code formatting",
       success := "Code formatting is correct", failure := "Code formatting issues found",
       file := "format.log", command := "dotnet format --verify-no-changes" },
     { language := Language.CSharp, description := "Running unit tests",
       success := "All tests passed", failure := "Some tests failed",
       file := "test.log", command := "dotnet test" },
     { language := Language.CSharp, description := "Building the project",
       success := "Build successful", failure := "Build failed",
       file := "build.log", command := "dotnet build" },
     { language := Language.CSharp, description := "Checking for dependency updates",
       success := "Dependencies are up to date", failure := "Dependency updates available",
       file := "deps.log", command := "dotnet restore" },
     { language := Language.CSharp, description := "Checking for security vulnerabilities",
       success := "No vulnerabilities found", failure := "Vulnerabilities found",
       file := "audit.log", command := "dotnet audit" }]

/-- Hook::swift pushes the Swift hooks onto the vector. -/
def Hook.swift (hooks : List Hook) : List Hook :=
  hooks ++
    [{ language := Language.Swift, description := "Checking for code formatting",
       success := "Code formatting is correct", failure := "Code formatting issues found",
       file := "format.log", command := "swiftformat --lint ." },
     { language := Language.Swift, description := "Running unit tests",
       success := "All tests passed", failure := "Some tests failed",
       file := "test.log", command := "swift test" },
     { language := Language.Swift, description := "Checking for security vulnerabilities",
       success := "No vulnerabilities found", failure := "Vulnerabilities found",
       file := "audit.log", command := "swift package audit" },
     { language := Language.Swift, description := "Building the project",
       success := "Build successful", failure := "Build failed",
       file := "build.log", command := "swift build" },
     { language := Language.Swift, description := "Running integration tests",
       success := "All integration tests passed", failure := "Some integration tests failed",
       file := "integration.log", command := "swift test --parallel" }]

/-- Hook::dart pushes the Dart hooks onto the vector. -/
def Hook.dart (hooks : List Hook) : List Hook :=
  hooks ++
    [{ language := Language.Dart, description := "Checking for code formatting",
       success := "Code formatting is correct", failure := "Code formatting issues found",
       file := "format.log", command := "dart format --set-exit-if-changed" },
     { language := Language.Dart, description := "Running unit tests",
       success := "All tests passed", failure := "Some tests failed",
       file := "test.log", command := "dart test" },
     { language := Language.Dart, description := "Checking for security vulnerabilities",
       success := "No vulnerabilities found", failure := "Vulnerabilities found",
       file := "audit.log", command := "dart pub audit" },
     { language := Language.Dart, description := "Building the project",
       success := "Build successful", failure := "Build failed",
       file := "build.log", command := "dart compile exe bin/main.dart" }]

/-- Hook::kotlin pushes the single Kotlin hook onto the vector. -/
def Hook.kotlin (hooks : List Hook) : List Hook :=
  hooks ++
    [{ language := Language.Kotlin, description := "Running unit tests",
       success := "All tests passed", failure := "Some tests failed",
       file := "test.log", command := "gradle test" }]

/-- Hook::elixir pushes the Elixir hooks onto the vector. -/
def Hook.elixir (hooks : List Hook) : List Hook :=
  hooks ++
    [{ language := Language.Elixir, description := "Checking for code formatting",
       success := "Code formatting is correct", failure := "Code formatting issues found",
       file := "format.log", command := "mix format --check-formatted" },
     { language := Language.Elixir, description := "Running unit tests",
       success := "All tests passed", failure := "Some tests failed",
       file := "test.log", command := "mix test" },
     { language := Language.Elixir, description := "Generating documentation",
       success := "Documentation generated successfully",
       failure := "Documentation generation failed",
       file := "docs.log", command := "mix docs" },
     { language := Language.Elixir, description := "Checking for security vulnerabilities",
       success := "No vulnerabilities found", failure := "Vulnerabilities found",
       file := "audit.log", command := "mix audit" },
     { language := Language.Elixir, description := "Building the project",
       success := "Build successful", failure := "Build failed",
       file := "build.log", command := "mix compile" }]

/-- Hook::get: dispatch on the language, starting from an empty vector
(Unknown and R produce no hooks). -/
def Hook.get (windows : Bool) (language : Language) : List Hook :=
  match language with
  | Language.Unknown | Language.R => []
  | Language.Kotlin => Hook.kotlin []
  | Language.Typescript => Hook.typescript []
  | Language.D => Hook.d []
  | Language.Haskell => Hook.haskell []
  | Language.Maven => Hook.maven []
  | Language.Gradle => Hook.gradle windows []
  | Language.Javascript => Hook.javascript []
  | Language.Rust => Hook.rust []
  | Language.Python => Hook.python []
  | Language.Go => Hook.go []
  | Language.Php => Hook.php []
  | Language.Ruby => Hook.ruby []
  | Language.CMake => Hook.cmake []
  | Language.CSharp => Hook.csharp []
  | Language.Swift => Hook.swift []
  | Language.Dart => Hook.dart []
  | Language.Elixir => Hook.elixir []

/-- Outcome of spawning one hook command and waiting for it: either an
io failure while spawning or waiting (the two fallible calls in ok), or a
terminated process with its optional exit code (code() in the source). -/
inductive ExecOutcome where
  | ioErr
  | exited (code : Option Int)
  deriving DecidableEq, Repr

/-- The ok function of src/hooks.rs: spawn and wait (modelled by the given
outcome; an io failure propagates), then succeed exactly when the exit
code is Some(0), otherwise fail with the hook failure message. -/
def ok (_desc : String) (outcome : ExecOutcome) (_success : String)
    (failure : String) : Except String Unit :=
  match outcome with
  | ExecOutcome.ioErr => Except.error "io error"
  | ExecOutcome.exited code =>
    if code = some (0 : Int) then Except.ok () else Except.error failure

/-- Result::is_err for the result of ok. -/
def isErrB : Except String Unit → Bool
  | Except.ok _ => false
  | Except.error _ => true

/-- Environment for one verify run: whether create_dir_all succeeds on a
path, whether File::create succeeds for the stdout and stderr log of the
hook at a given list position, the exec outcome of the hook at a given
position, and the wall-clock seconds its subprocess takes (the only
blocking operations, so the elapsed-seconds model sums them). -/
structure Env where
  dirOk : String → Bool
  outFileOk : Nat → Bool
  errFileOk : Nat → Bool
  run : Nat → ExecOutcome
  dur : Nat → Nat

/-- Mutable state of the verify loop: recorded statuses, log files created
so far, positions of hooks whose command was spawned, and elapsed seconds. -/
structure LoopState where
  status : List Bool
  files : List String
  ran : List Nat
  elapsed : Nat
  deriving DecidableEq, Repr

/-- Observable outcome of verify: its returned Result, plus the trace of
directories created, log files created, recorded statuses and spawned
hook positions. -/
structure VerifyOut where
  result : Except String (Bool × Nat)
  dirs : List String
  files : List String
  status : List Bool
  ran : List Nat
  deriving Repr

/-- The for-loop of verify: iterate over the hooks in list order, skipping
hooks whose language is Unknown (continue), creating the two log files for
each remaining hook (a creation failure propagates and aborts the loop),
spawning the command through ok and recording false on Err, true otherwise. -/
def verifyLoop (env : Env) (stdoutDir stderrDir : String) :
    List Hook → Nat → LoopState → Except String Unit × LoopState
  | [], _, st => (Except.ok (), st)
  | hook :: rest, i, st =>
    if hook.language = Language.Unknown then
      verifyLoop env stdoutDir stderrDir rest (i + 1) st
    else
      if env.outFileOk i then
        let st1 : LoopState :=
          { st with files := st.files ++ [stdoutDir ++ "/" ++ hook.file] }
        if env.errFileOk i then
          let st2 : LoopState :=
            { st1 with files := st1.files ++ [stderrDir ++ "/" ++ hook.file] }
          let result := ok hook.description (env.run i) hook.success hook.failure
          let st3 : LoopState :=
            { st2 with
              status := st2.status ++ [if isErrB result then false else true],
              ran := st2.ran ++ [i],
              elapsed := st2.elapsed + env.dur i }
          verifyLoop env stdoutDir stderrDir rest (i + 1) st3
        else (Except.error "failed to create log file", st1)
      else (Except.error "failed to create log file", st)

/-- The verify function of src/hooks.rs: create the breathes directory
(a failure propagates), peek at the first hook; if its language is Unknown
return Ok((true, 0)); otherwise create the per-language stdout and stderr
directories and run the loop; finally return the conjunction of the
recorded statuses together with the elapsed seconds.  An empty hook list
skips the block and returns the vacuous aggregate Ok((true, 0)). -/
def verify (env : Env) (hooks : List Hook) : VerifyOut :=
  if env.dirOk "breathes" then
    match hooks with
    | [] =>
      { result := Except.ok (true, 0), dirs := ["breathes"], files := [],
        status := [], ran := [] }
    | first :: _ =>
      if first.language = Language.Unknown then
        { result := Except.ok (true, 0), dirs := ["breathes"], files := [],
          status := [], ran := [] }
      else
        let stdoutDir := "breathes/" ++ first.language.display ++ "/stdout"
        let stderrDir := "breathes/" ++ first.language.display ++ "/stderr"
        if env.dirOk stdoutDir then
          if env.dirOk stderrDir then
            let r := verifyLoop env stdoutDir stderrDir hooks 0
              { status := [], files := [], ran := [], elapsed := 0 }
            match r.1 with
            | Except.ok _ =>
              { result := Except.ok (!(r.2.status.contains false), r.2.elapsed),
                dirs := ["breathes", stdoutDir, stderrDir], files := r.2.files,
                status := r.2.status, ran := r.2.ran }
            | Except.error e =>
              { result := Except.error e,
                dirs := ["breathes", stdoutDir, stderrDir], files := r.2.files,
                status := r.2.status, ran := r.2.ran }
          else
            { result := Except.error "failed to create directory",
              dirs := ["breathes", stdoutDir], files := [], status := [], ran := [] }
        else
          { result := Except.error "failed to create directory",
            dirs := ["breathes"], files := [], status := [], ran := [] }
  else
    { result := Except.error "failed to create directory",
      dirs := [], files := [], status := [], ran := [] }

/-- Filesystem environment for detection: which paths are regular files,
and the result of glob expansion on a pattern: either a pattern error, or
a list of entries each of which is a path or a per-entry glob error. -/
structure DetectEnv where
  isFile : String → Bool
  glob : String → Except Unit (List (Except Unit String))

/-- The inner for-loop of add_if_exists over glob matches: every entry
that resolved and is a regular file pushes the language once. -/
def pushMatches (env : DetectEnv) (language : Language) :
    List (Except Unit String) → List Language → List Language
  | [], vec => vec
  | Except.ok p :: rest, vec =>
    if env.isFile p then pushMatches env language rest (vec ++ [language])
    else pushMatches env language rest vec
  | Except.error _ :: rest, vec => pushMatches env language rest vec

/-- The add_if_exists function of src/hooks.rs.  For CSharp and Haskell
with a successful glob expansion, push once per matching regular file.
In every other case, including CSharp or Haskell whose glob expansion
returned an error (the let-chain condition fails and control falls
through), push the language iff the literal pattern string names a
regular file. -/
def add_if_exists (env : DetectEnv) (file : String) (language : Language)
    (vec : List Language) : List Language :=
  match language, env.glob file with
  | Language.CSharp, Except.ok files => pushMatches env Language.CSharp files vec
  | Language.Haskell, Except.ok files => pushMatches env Language.Haskell files vec
  | _, _ => if env.isFile file then vec ++ [language] else vec

/-- The detect function of src/hooks.rs: fold add_if_exists over the
LANGUAGES registry in declaration order, starting from the empty vector. -/
def detect (env : DetectEnv) : List Language :=
  LANGUAGES.foldl (fun all lf => add_if_exists env lf.2 lf.1 all) []

/-- One step of the aggregation loop of run_hooks: an Err result or a
false status forces global_success to false, otherwise it is unchanged. -/
def globalStep (g : Bool) (r : Language × Except String (Bool × Nat)) : Bool :=
  match r.2 with
  | Except.ok (status, _) => if !status then false else g
  | Except.error _ => false

/-- The run_hooks function of src/hooks.rs: detect the languages, fail
with "No language detected" when none is found, otherwise verify the hook
list of every detected language (each with its own environment), fold the
results into global_success, and return Ok(0) on global success or the
failure message otherwise. -/
def run_hooks (windows : Bool) (fs : DetectEnv) (envOf : Language → Env) :
    Except String Int :=
  let l := detect fs
  if l.isEmpty then Except.error "No language detected"
  else
    let results := l.map
      (fun lang => (lang, (verify (envOf lang) (Hook.get windows lang)).result))
    let globalSuccess := results.foldl globalStep true
    if !globalSuccess then Except.error "Checks failed. Check logs in ./breathes/"
    else Except.ok 0

/-- A hook is relevant to the verify loop iff its language is not Unknown
(the loop skips Unknown hooks with continue). -/
def nonUnknown (h : Hook) : Bool := !(h.language == Language.Unknown)

/-- Spec-side description of the log-file layout of one verify run: for
every hook in list order whose language is known, one stdout file and one
stderr file, each named after the hook log filename.  Used to compare the
verify implementation against the documented layout. -/
def specLogFiles (stdoutDir stderrDir : String) : List Hook → List String
  | [] => []
  | h :: rest =>
    if h.language = Language.Unknown then specLogFiles stdoutDir stderrDir rest
    else
      (stdoutDir ++ "/" ++ h.file) :: (stderrDir ++ "/" ++ h.file) ::
        specLogFiles stdoutDir stderrDir rest

/-- A glob entry counts as a match iff it resolved to a path that is a
regular file. -/
def globEntryIsFile (env : DetectEnv) : Except Unit String → Bool
  | Except.ok p => env.isFile p
  | Except.error _ => false

/-- Spec-side description of the detections contributed by one registry
rule, mirroring the documented detector contract as amended: a successful
glob expansion for CSharp or Haskell contributes one detection per
matching regular file; in every other case, including a glob error on the
CSharp or Haskell pattern, the rule falls back to the plain-filename test
on the literal pattern string. -/
def specRuleDetections (env : DetectEnv) (rule : Language × String) : List Language :=
  match rule.1, env.glob rule.2 with
  | Language.CSharp, Except.ok files =>
    (files.filter (globEntryIsFile env)).map (fun _ => Language.CSharp)
  | Language.Haskell, Except.ok files =>
    (files.filter (globEntryIsFile env)).map (fun _ => Language.Haskell)
  | _, _ => if env.isFile rule.2 then [rule.1] else []

/-- Spec-side description of the whole scan: concatenate the detections of
the rules in registry order. -/
def specDetect (env : DetectEnv) : List (Language × String) → List Language
  | [] => []
  | r :: rest => specRuleDetections env r ++ specDetect env rest

/-- Whether one entry of the run_hooks result vector counts as a success:
an Ok result whose all_succeeded component is true. -/
def resultOk (r : Language × Except String (Bool × Nat)) : Bool :=
  match r.2 with
  | Except.ok (status, _) => status
  | Except.error _ => false

/-- Environment in which every filesystem operation succeeds, every hook
command exits with code 0, and every subprocess takes zero seconds. -/
def allOk : Env :=
  { dirOk := fun _ => true, outFileOk := fun _ => true, errFileOk := fun _ => true,
    run := fun _ => ExecOutcome.exited (some 0), dur := fun _ => 0 }

/-- Environment in which every directory creation fails. -/
def dirFail : Env :=
  { dirOk := fun _ => false, outFileOk := fun _ => true, errFileOk := fun _ => true,
    run := fun _ => ExecOutcome.exited (some 0), dur := fun _ => 0 }

/-- Environment in which the filesystem works but the first hook command
exits with code 1 while every later hook command exits with code 0. -/
def failFirst : Env :=
  { dirOk := fun _ => true, outFileOk := fun _ => true, errFileOk := fun _ => true,
    run := fun j =>
      if j = 0 then ExecOutcome.exited (some 1) else ExecOutcome.exited (some 0),
    dur := fun _ => 0 }

/-- Detection environment of an empty working directory. -/
def emptyFs : DetectEnv :=
  { isFile := fun _ => false, glob := fun _ => Except.error () }

/-- Detection environment of a working directory containing only go.mod. -/
def goFs : DetectEnv :=
  { isFile := fun p => p == "go.mod", glob := fun _ => Except.error () }

/-- Detection environment in which every glob expansion fails, while a
regular file literally named like the Haskell pattern *.cabal exists. -/
def globErrFs : DetectEnv :=
  { isFile := fun p => p == "*.cabal", glob := fun _ => Except.error () }

/-- Detection environment with two csproj files and two cabal files, both
glob expansions succeeding. -/
def dupFs : DetectEnv :=
  { isFile := fun p => p == "a.csproj" || p == "b.csproj" || p == "x.cabal" || p == "y.cabal",
    glob := fun p =>
      if p == "*.csproj" then Except.ok [Except.ok "a.csproj", Except.ok "b.csproj"]
      else if p == "*.cabal" then Except.ok [Except.ok "x.cabal", Except.ok "y.cabal"]
      else Except.error () }

/-- A concrete hook with a known language. -/
def hookA : Hook :=
  { language := Language.Go, description := "a", success := "s", failure := "f",
    file := "a.log", command := "true" }

/-- A concrete hook whose language is Unknown. -/
def hookB : Hook :=
  { language := Language.Unknown, description := "b", success := "s", failure := "f",
    file := "b.log", command := "true" }

theorem pushMatches_eq (env : DetectEnv) (language : Language) :
    ∀ (files : List (Except Unit String)) (vec : List Language),
      pushMatches env language files vec =
        vec ++ (files.filter (globEntryIsFile env)).map (fun _ => language) := by
  intro files
  induction files with
  | nil => intro vec; simp [pushMatches]
  | cons f rest ih =>
    intro vec
    cases f with
    | ok p =>
      by_cases hp : env.isFile p
      · simp [pushMatches, hp, ih, globEntryIsFile, List.filter_cons]
      · simp [pushMatches, hp, ih, globEntryIsFile, List.filter_cons]
    | error u => simp [pushMatches, ih, globEntryIsFile, List.filter_cons]

theorem add_if_exists_eq (env : DetectEnv) (file : String) (language : Language)
    (vec : List Language) :
    add_if_exists env file language vec =
      vec ++ specRuleDetections env (language, file) := by
  rcases hg : env.glob file with u | fs <;>
    cases language <;>
      simp [add_if_exists, specRuleDetections, hg, pushMatches_eq] <;>
        cases hf : env.isFile file <;> simp [hf]

theorem foldl_add_if_exists (env : DetectEnv) :
    ∀ (rules : List (Language × String)) (vec : List Language),
      rules.foldl (fun all lf => add_if_exists env lf.2 lf.1 all) vec =
        vec ++ specDetect env rules := by
  intro rules
  induction rules with
  | nil => intro vec; simp [specDetect]
  | cons r rest ih =>
    intro vec
    rw [List.foldl_cons, ih, add_if_exists_eq]
    simp [specDetect, List.append_assoc]

theorem detect_eq_specDetect (env : DetectEnv) :
    detect env = specDetect env LANGUAGES := by
  have h := foldl_add_if_exists env LANGUAGES []
  simpa [detect] using h

theorem count_specRule_ne (env : DetectEnv) (rule : Language × String)
    (a : Language) (h : rule.1 ≠ a) :
    List.count a (specRuleDetections env rule) = 0 := by
  rcases rule with ⟨l, f⟩
  simp only [List.count_eq_zero]
  intro hmem
  rcases hg : env.glob f with u | fs <;> cases l <;>
    simp [specRuleDetections, hg] at hmem <;>
      (rcases hmem with ⟨hfile, hEq⟩; exact h (by simp [hEq]))

theorem count_const_map {α : Type} (l : List α) (a : Language) :
    List.count a (l.map (fun _ => a)) = l.length := by
  induction l with
  | nil => simp
  | cons x t ih => simp [List.count_cons, ih]

theorem not_contains_false_eq_all (l : List Bool) :
    (!(l.contains false)) = l.all (fun b => b) := by
  induction l with
  | nil => rfl
  | cons b t ih => cases b <;> simp_all [List.contains_cons]

theorem specLogFiles_length (stdoutDir stderrDir : String) (hooks : List Hook) :
    (specLogFiles stdoutDir stderrDir hooks).length =
      2 * (hooks.filter nonUnknown).length := by
  induction hooks with
  | nil => rfl
  | cons h t ih =>
    by_cases hU : h.language = Language.Unknown
    · have hn : nonUnknown h = false := by simp [nonUnknown, hU]
      simp [specLogFiles, hU, List.filter_cons, hn, ih]
    · have hn : nonUnknown h = true := by simp [nonUnknown, hU]
      simp [specLogFiles, hU, List.filter_cons, hn, ih]
      omega

theorem verifyLoop_fs_ok (env : Env) (stdoutDir stderrDir : String)
    (hout : ∀ j, env.outFileOk j = true) (herr : ∀ j, env.errFileOk j = true) :
    ∀ (hooks : List Hook) (i : Nat) (st : LoopState),
      (verifyLoop env stdoutDir stderrDir hooks i st).1 = Except.ok () ∧
      (verifyLoop env stdoutDir stderrDir hooks i st).2.files =
        st.files ++ specLogFiles stdoutDir stderrDir hooks ∧
      (verifyLoop env stdoutDir stderrDir hooks i st).2.status.length =
        st.status.length + (hooks.filter nonUnknown).length := by
  intro hooks
  induction hooks with
  | nil => intro i st; simp [verifyLoop, specLogFiles]
  | cons hook rest ih =>
    intro i st
    by_cases hU : hook.language = Language.Unknown
    · have hn : nonUnknown hook = false := by simp [nonUnknown, hU]
      have hstep : verifyLoop env stdoutDir stderrDir (hook :: rest) i st =
          verifyLoop env stdoutDir stderrDir rest (i + 1) st := by
        simp [verifyLoop, hU]
      rcases ih (i + 1) st with ⟨a, b, c⟩
      rw [hstep]
      exact ⟨a, by rw [b]; simp [specLogFiles, hU],
        by rw [c]; simp [List.filter_cons, hn]⟩
    · have hn : nonUnknown hook = true := by simp [nonUnknown, hU]
      have hstep : verifyLoop env stdoutDir stderrDir (hook :: rest) i st =
          verifyLoop env stdoutDir stderrDir rest (i + 1)
            { status := st.status ++
                [if isErrB (ok hook.description (env.run i) hook.success hook.failure)
                 then false else true],
              files := (st.files ++ [stdoutDir ++ "/" ++ hook.file]) ++
                [stderrDir ++ "/" ++ hook.file],
              ran := st.ran ++ [i],
              elapsed := st.elapsed + env.dur i } := by
        simp [verifyLoop, hU, hout i, herr i]
      rcases ih (i + 1)
          { status := st.status ++
              [if isErrB (ok hook.description (env.run i) hook.success hook.failure)
               then false else true],
            files := (st.files ++ [stdoutDir ++ "/" ++ hook.file]) ++
              [stderrDir ++ "/" ++ hook.file],
            ran := st.ran ++ [i],
            elapsed := st.elapsed + env.dur i } with ⟨a, b, c⟩
      rw [hstep]
      refine ⟨a, ?_, ?_⟩
      · rw [b]; simp [specLogFiles, hU, List.append_assoc]
      · rw [c]; simp [List.filter_cons, hn]; omega

theorem verifyLoop_ran (env : Env) (stdoutDir stderrDir : String) :
    ∀ (hooks : List Hook) (i : Nat) (st : LoopState) (e : String),
      (verifyLoop env stdoutDir stderrDir hooks i st).1 = Except.error e →
      (verifyLoop env stdoutDir stderrDir hooks i st).2.ran.length <
        st.ran.length + (hooks.filter nonUnknown).length := by
  intro hooks
  induction hooks with
  | nil => intro i st e he; simp [verifyLoop] at he
  | cons hook rest ih =>
    intro i st e he
    by_cases hU : hook.language = Language.Unknown
    · have hn : nonUnknown hook = false := by simp [nonUnknown, hU]
      have hstep : verifyLoop env stdoutDir stderrDir (hook :: rest) i st =
          verifyLoop env stdoutDir stderrDir rest (i + 1) st := by
        simp [verifyLoop, hU]
      rw [hstep] at he ⊢
      rw [List.filter_cons, hn]
      exact ih (i + 1) st e he
    · have hn : nonUnknown hook = true := by simp [nonUnknown, hU]
      have hc : ((hook :: rest).filter nonUnknown).length =
          (rest.filter nonUnknown).length + 1 := by
        rw [List.filter_cons, hn]; simp
      by_cases h1 : env.outFileOk i
      · by_cases h2 : env.errFileOk i
        · have hstep : verifyLoop env stdoutDir stderrDir (hook :: rest) i st =
              verifyLoop env stdoutDir stderrDir rest (i + 1)
                { status := st.status ++
                    [if isErrB (ok hook.description (env.run i) hook.success hook.failure)
                     then false else true],
                  files := (st.files ++ [stdoutDir ++ "/" ++ hook.file]) ++
                    [stderrDir ++ "/" ++ hook.file],
                  ran := st.ran ++ [i],
                  elapsed := st.elapsed + env.dur i } := by
            simp [verifyLoop, hU, h1, h2]
          rw [hstep] at he ⊢
          have := ih (i + 1)
            { status := st.status ++
                [if isErrB (ok hook.description (env.run i) hook.success hook.failure)
                 then false else true],
              files := (st.files ++ [stdoutDir ++ "/" ++ hook.file]) ++
                [stderrDir ++ "/" ++ hook.file],
              ran := st.ran ++ [i],
              elapsed := st.elapsed + env.dur i } e he
          rw [hc]
          simp only [List.length_append, List.length_cons, List.length_nil] at this
          omega
        · have hstep : verifyLoop env stdoutDir stderrDir (hook :: rest) i st =
              (Except.error "failed to create log file",
                { st with files := st.files ++ [stdoutDir ++ "/" ++ hook.file] }) := by
            simp [verifyLoop, hU, h1, h2]
          rw [hstep]
          rw [hc]
          simp
      · have hstep : verifyLoop env stdoutDir stderrDir (hook :: rest) i st =
            (Except.error "failed to create log file", st) := by
          simp [verifyLoop, hU, h1]
        rw [hstep]
        rw [hc]
        simp

theorem globalStep_eq (g : Bool) (r : Language × Except String (Bool × Nat)) :
    globalStep g r = (g && resultOk r) := by
  rcases r with ⟨lang, res⟩
  rcases res with e | p
  · simp [globalStep, resultOk]
  · rcases p with ⟨s, t⟩
    cases s <;> cases g <;> simp [globalStep, resultOk]

theorem foldl_globalStep (l : List (Language × Except String (Bool × Nat))) :
    ∀ b : Bool, l.foldl globalStep b = (b && l.all resultOk) := by
  induction l with
  | nil => intro b; simp
  | cons x xs ih =>
    intro b
    rw [List.foldl_cons, ih, globalStep_eq]
    simp [List.all_cons, Bool.and_assoc]

theorem resultOk_iff (lang : Language) (r : Except String (Bool × Nat)) :
    resultOk (lang, r) = true ↔ ∃ t, r = Except.ok (true, t) := by
  rcases r with e | ⟨s, t⟩
  · simp [resultOk]
  · cases s <;> simp [resultOk]

/-- Claim C1, counterexample: displaying Language.R produces "R", but the
From<String> chain never tests for "R", so parsing the displayed name of R
yields Unknown instead of R.  Display-then-parse is therefore not the
identity on Language, refuting the claim as stated. -/
theorem C1_display_roundtrip_fails_on_R :
    Language.display Language.R = "R" ∧
    Language.fromString (Language.display Language.R) = Language.Unknown ∧
    Language.fromString (Language.display Language.R) ≠ Language.R := by
  refine ⟨rfl, rfl, ?_⟩
  decide

/-- Claim C1 (amended): parsing the displayed name is the identity for
every Language value except R; the displayed name of R parses to Unknown;
and any string that is the displayed name of no Language value parses to
Unknown. -/
theorem C1_roundtrip_amended :
    (∀ L : Language, L ≠ Language.R →
      Language.fromString (Language.display L) = L) ∧
    Language.fromString (Language.display Language.R) = Language.Unknown ∧
    (∀ s : String, (∀ L : Language, Language.display L ≠ s) →
      Language.fromString s = Language.Unknown) := by
  refine ⟨?_, rfl, ?_⟩
  · intro L hL
    cases L <;> first | rfl | exact absurd rfl hL
  · intro s h
    have h1 : ¬ s = "Javascript" := fun e => h Language.Javascript (by rw [e]; exact rfl)
    have h2 : ¬ s = "Typescript" := fun e => h Language.Typescript (by rw [e]; exact rfl)
    have h3 : ¬ s = "Rust" := fun e => h Language.Rust (by rw [e]; exact rfl)
    have h4 : ¬ s = "Python" := fun e => h Language.Python (by rw [e]; exact rfl)
    have h5 : ¬ s = "Go" := fun e => h Language.Go (by rw [e]; exact rfl)
    have h6 : ¬ s = "Php" := fun e => h Language.Php (by rw [e]; exact rfl)
    have h7 : ¬ s = "Ruby" := fun e => h Language.Ruby (by rw [e]; exact rfl)
    have h8 : ¬ s = "CMake" := fun e => h Language.CMake (by rw [e]; exact rfl)
    have h9 : ¬ s = "CSharp" := fun e => h Language.CSharp (by rw [e]; exact rfl)
    have h10 : ¬ s = "Maven" := fun e => h Language.Maven (by rw [e]; exact rfl)
    have h11 : ¬ s = "Kotlin" := fun e => h Language.Kotlin (by rw [e]; exact rfl)
    have h12 : ¬ s = "Gradle" := fun e => h Language.Gradle (by rw [e]; exact rfl)
    have h13 : ¬ s = "Swift" := fun e => h Language.Swift (by rw [e]; exact rfl)
    have h14 : ¬ s = "Dart" := fun e => h Language.Dart (by rw [e]; exact rfl)
    have h15 : ¬ s = "Elixir" := fun e => h Language.Elixir (by rw [e]; exact rfl)
    have h16 : ¬ s = "D" := fun e => h Language.D (by rw [e]; exact rfl)
    have h17 : ¬ s = "Haskell" := fun e => h Language.Haskell (by rw [e]; exact rfl)
    simp only [Language.fromString, if_neg h1, if_neg h2, if_neg h3, if_neg h4,
      if_neg h5, if_neg h6, if_neg h7, if_neg h8, if_neg h9, if_neg h10,
      if_neg h11, if_neg h12, if_neg h13, if_neg h14, if_neg h15, if_neg h16,
      if_neg h17]

/-- Witness for the amended claim C1 at concrete inputs: Rust round-trips,
and the unrecognized name Cobol parses to Unknown. -/
theorem C1_roundtrip_witness :
    Language.fromString (Language.display Language.Rust) = Language.Rust ∧
    Language.fromString "Cobol" = Language.Unknown :=
  ⟨C1_roundtrip_amended.1 Language.Rust (by decide),
   C1_roundtrip_amended.2.2 "Cobol" (by intro L; cases L <;> decide)⟩

/-- Claim C2: for a hook list that is empty or whose first hook carries
the Unknown language, verify returns Ok((true, 0)) and creates no log
subdirectory: the only directory created is the breathes root (which the
source creates before the emptiness check), and no log file is created.
The hypothesis is that creating the breathes root succeeds. -/
theorem C2_vacuous_success (env : Env) (hooks : List Hook)
    (hdir : env.dirOk "breathes" = true)
    (h : hooks = [] ∨
      ∃ first rest, hooks = first :: rest ∧ first.language = Language.Unknown) :
    (verify env hooks).result = Except.ok (true, 0) ∧
    (verify env hooks).dirs = ["breathes"] ∧
    (verify env hooks).files = [] := by
  rcases h with h | ⟨first, rest, h, hU⟩
  · subst h
    refine ⟨?_, ?_, ?_⟩ <;> simp [verify, hdir]
  · subst h
    refine ⟨?_, ?_, ?_⟩ <;> simp [verify, hdir, hU]

/-- Witness for claim C2: the empty hook list under the all-succeeding
environment. -/
theorem C2_vacuous_witness :
    (verify allOk ([] : List Hook)).result = Except.ok (true, 0) ∧
    (verify allOk ([] : List Hook)).dirs = ["breathes"] ∧
    (verify allOk ([] : List Hook)).files = [] :=
  C2_vacuous_success allOk [] rfl (Or.inl rfl)

/-- Claim C6: the ok function returns Ok(()) exactly when the process
exited with code Some(0); for every other outcome, any other exit code or
an io failure while spawning or waiting, it returns an Err. -/
theorem C6_ok_exit_zero (d s f : String) (outcome : ExecOutcome) :
    (ok d outcome s f = Except.ok () ↔ outcome = ExecOutcome.exited (some 0)) ∧
    (outcome ≠ ExecOutcome.exited (some 0) →
      ∃ e, ok d outcome s f = Except.error e) := by
  constructor
  · constructor
    · intro h
      cases outcome with
      | ioErr => simp [ok] at h
      | exited code =>
        by_cases hc : code = some (0 : Int)
        · rw [hc]
        · simp [ok, hc] at h
    · intro h
      subst h
      simp [ok]
  · intro h
    cases outcome with
    | ioErr => exact ⟨"io error", rfl⟩
    | exited code =>
      have hc : ¬ code = some (0 : Int) := fun e => h (by rw [e])
      exact ⟨f, by simp [ok, hc]⟩

/-- Witness for claim C6 at concrete outcomes: exit code 0 yields Ok, and
an io failure yields an Err. -/
theorem C6_ok_witness :
    (ok "d" (ExecOutcome.exited (some 0)) "s" "f" = Except.ok ()) ∧
    (∃ e, ok "d" ExecOutcome.ioErr "s" "f" = Except.error e) :=
  ⟨(C6_ok_exit_zero "d" "s" "f" (ExecOutcome.exited (some 0))).1.mpr rfl,
   (C6_ok_exit_zero "d" "s" "f" ExecOutcome.ioErr).2 (by decide)⟩

/-- Claim C3: the Typescript hook list has six hooks, the first four tagged
Javascript (the shared Javascript list) and the last two tagged Typescript;
since verify derives the log directory from the first hook language, a full
run of the Typescript list creates its directories and every one of its
twelve log files under breathes/Javascript/, none under
breathes/Typescript/. -/
theorem C3_typescript_logs_under_javascript (w : Bool) :
    (Hook.get w Language.Typescript).length = 6 ∧
    ((Hook.get w Language.Typescript).take 4).all
      (fun h => h.language == Language.Javascript) = true ∧
    ((Hook.get w Language.Typescript).drop 4).all
      (fun h => h.language == Language.Typescript) = true ∧
    (verify allOk (Hook.get w Language.Typescript)).dirs =
      ["breathes", "breathes/Javascript/stdout", "breathes/Javascript/stderr"] ∧
    (verify allOk (Hook.get w Language.Typescript)).files =
      ["breathes/Javascript/stdout/outdated.log", "breathes/Javascript/stderr/outdated.log",
       "breathes/Javascript/stdout/test.log", "breathes/Javascript/stderr/test.log",
       "breathes/Javascript/stdout/audit.log", "breathes/Javascript/stderr/audit.log",
       "breathes/Javascript/stdout/lint.log", "breathes/Javascript/stderr/lint.log",
       "breathes/Javascript/stdout/types.log", "breathes/Javascript/stderr/types.log",
       "breathes/Javascript/stdout/fmt.log", "breathes/Javascript/stderr/fmt.log"] := by
  cases w <;> exact ⟨rfl, rfl, rfl, rfl, rfl⟩

/-- Claim C4: when the filesystem operations succeed, verify always returns
Ok, the returned boolean is the conjunction of all recorded hook results,
and, whenever the first hook carries a known language, the number of
recorded results equals the number of hooks the loop considers, so a
failing hook command never prevents a later hook from being executed and
recorded. -/
theorem C4_no_short_circuit (env : Env) (hooks : List Hook)
    (hdir : ∀ p, env.dirOk p = true)
    (hout : ∀ j, env.outFileOk j = true)
    (herr : ∀ j, env.errFileOk j = true) :
    (∃ t, (verify env hooks).result =
      Except.ok ((verify env hooks).status.all (fun b => b), t)) ∧
    ((∀ f, hooks.head? = some f → f.language ≠ Language.Unknown) →
      (verify env hooks).status.length = (hooks.filter nonUnknown).length) := by
  cases hooks with
  | nil =>
    constructor
    · exact ⟨0, by simp [verify, hdir]⟩
    · intro hfirst
      simp [verify, hdir]
  | cons first rest =>
    by_cases hU : first.language = Language.Unknown
    · constructor
      · exact ⟨0, by simp [verify, hdir, hU]⟩
      · intro hfirst
        exact absurd hU (hfirst first rfl)
    · obtain ⟨h1, h2, h3⟩ := verifyLoop_fs_ok env
        ("breathes/" ++ first.language.display ++ "/stdout")
        ("breathes/" ++ first.language.display ++ "/stderr") hout herr
        (first :: rest) 0 { status := [], files := [], ran := [], elapsed := 0 }
      constructor
      · refine ⟨(verifyLoop env
          ("breathes/" ++ first.language.display ++ "/stdout")
          ("breathes/" ++ first.language.display ++ "/stderr")
          (first :: rest) 0
          { status := [], files := [], ran := [], elapsed := 0 }).2.elapsed, ?_⟩
        simp only [verify, hdir, hU, if_true, if_false, ite_true, ite_false, h1]
        rw [not_contains_false_eq_all]
      · intro hfirst
        simp only [verify, hdir, hU, if_true, if_false, ite_true, ite_false, h1]
        simp [h1, h3]

/-- Witness for claim C4: the two-hook Go list in an environment in which
the first hook command exits with code 1: both hooks are recorded and the
returned boolean is the conjunction of the recorded results. -/
theorem C4_witness :
    (∃ t, (verify failFirst (Hook.get false Language.Go)).result =
      Except.ok ((verify failFirst (Hook.get false Language.Go)).status.all
        (fun b => b), t)) ∧
    ((∀ f, (Hook.get false Language.Go).head? = some f →
        f.language ≠ Language.Unknown) →
      (verify failFirst (Hook.get false Language.Go)).status.length =
        ((Hook.get false Language.Go).filter nonUnknown).length) :=
  C4_no_short_circuit failFirst (Hook.get false Language.Go)
    (fun _ => rfl) (fun _ => rfl) (fun _ => rfl)

/-- Claim C7: verify can return an Err only out of a filesystem failure:
when every directory and log-file creation succeeds the result is Ok for
every pattern of hook command outcomes (a hook failure or spawn failure
never produces Err); and when the result is an Err, strictly fewer hooks
were spawned than the loop would consider, so the remaining hooks of the
list were aborted (the degenerate disjunct covers lists in which the loop
considers no hook at all). -/
theorem C7_error_only_fs (env : Env) (hooks : List Hook) :
    ((∀ p, env.dirOk p = true) → (∀ j, env.outFileOk j = true) →
      (∀ j, env.errFileOk j = true) →
      ∃ r, (verify env hooks).result = Except.ok r) ∧
    (∀ e, (verify env hooks).result = Except.error e →
      (verify env hooks).ran.length < (hooks.filter nonUnknown).length ∨
        (hooks.filter nonUnknown).length = 0) := by
  constructor
  · intro hdir hout herr
    cases hooks with
    | nil => exact ⟨(true, 0), by simp [verify, hdir]⟩
    | cons first rest =>
      by_cases hU : first.language = Language.Unknown
      · exact ⟨(true, 0), by simp [verify, hdir, hU]⟩
      · obtain ⟨h1, -, -⟩ := verifyLoop_fs_ok env
          ("breathes/" ++ first.language.display ++ "/stdout")
          ("breathes/" ++ first.language.display ++ "/stderr") hout herr
          (first :: rest) 0 { status := [], files := [], ran := [], elapsed := 0 }
        refine ⟨(!((verifyLoop env
            ("breathes/" ++ first.language.display ++ "/stdout")
            ("breathes/" ++ first.language.display ++ "/stderr")
            (first :: rest) 0
            { status := [], files := [], ran := [], elapsed := 0 }).2.status.contains false),
          (verifyLoop env
            ("breathes/" ++ first.language.display ++ "/stdout")
            ("breathes/" ++ first.language.display ++ "/stderr")
            (first :: rest) 0
            { status := [], files := [], ran := [], elapsed := 0 }).2.elapsed), ?_⟩
        simp only [verify, hdir, hU, if_true, if_false, ite_true, ite_false, h1]
  · intro e he
    by_cases hb : env.dirOk "breathes"
    · cases hooks with
      | nil => simp [verify, hb] at he
      | cons first rest =>
        by_cases hU : first.language = Language.Unknown
        · simp [verify, hb, hU] at he
        · by_cases hn1 : env.dirOk ("breathes/" ++ first.language.display ++ "/stdout")
          · by_cases hn2 : env.dirOk ("breathes/" ++ first.language.display ++ "/stderr")
            · cases hr : (verifyLoop env
                  ("breathes/" ++ first.language.display ++ "/stdout")
                  ("breathes/" ++ first.language.display ++ "/stderr")
                  (first :: rest) 0
                  { status := [], files := [], ran := [], elapsed := 0 }).1 with
              | ok u => simp [verify, hb, hU, hn1, hn2, hr] at he
              | error e2 =>
                left
                have hlt := verifyLoop_ran env
                  ("breathes/" ++ first.language.display ++ "/stdout")
                  ("breathes/" ++ first.language.display ++ "/stderr")
                  (first :: rest) 0
                  { status := [], files := [], ran := [], elapsed := 0 } e2 hr
                simpa [verify, hb, hU, hn1, hn2, hr] using hlt
            · have hc : nonUnknown first = true := by simp [nonUnknown, hU]
              have : (verify env (first :: rest)).ran = [] := by
                simp [verify, hb, hU, hn1, hn2]
              rw [this, List.filter_cons, hc]
              left
              simp
          · have hc : nonUnknown first = true := by simp [nonUnknown, hU]
            have : (verify env (first :: rest)).ran = [] := by
              simp [verify, hb, hU, hn1]
            rw [this, List.filter_cons, hc]
            left
            simp
    · have hran : (verify env hooks).ran = [] := by simp [verify, hb]
      rw [hran]
      rcases Nat.eq_zero_or_pos (hooks.filter nonUnknown).length with h0 | hpos
      · exact Or.inr h0
      · exact Or.inl (by simpa using hpos)

/-- Witness for claim C7: the Go hook list, first in the all-succeeding
environment (the result is Ok), then in the environment in which every
directory creation fails (the result is an Err and no hook was spawned
although the list has two). -/
theorem C7_witness :
    (∃ r, (verify allOk (Hook.get false Language.Go)).result = Except.ok r) ∧
    ((verify dirFail (Hook.get false Language.Go)).ran.length <
        ((Hook.get false Language.Go).filter nonUnknown).length ∨
      ((Hook.get false Language.Go).filter nonUnknown).length = 0) :=
  ⟨(C7_error_only_fs allOk (Hook.get false Language.Go)).1
      (fun _ => rfl) (fun _ => rfl) (fun _ => rfl),
   (C7_error_only_fs dirFail (Hook.get false Language.Go)).2
      "failed to create directory" rfl⟩

/-- Claim C5: with no detected language, run_hooks returns the no-language
error without depending on any hook execution; with at least one detected
language, it returns Ok(0) exactly when the verification of every detected
language returned Ok with all_succeeded true, so an Err from verify also
counts as a failure for the global verdict. -/
theorem C5_run_hooks_global_verdict (w : Bool) (fs : DetectEnv)
    (envOf : Language → Env) :
    (detect fs = [] → run_hooks w fs envOf = Except.error "No language detected") ∧
    (detect fs ≠ [] →
      (run_hooks w fs envOf = Except.ok 0 ↔
        ∀ lang ∈ detect fs, ∃ t,
          (verify (envOf lang) (Hook.get w lang)).result = Except.ok (true, t))) := by
  constructor
  · intro h
    simp [run_hooks, h]
  · intro h
    have hne : (detect fs).isEmpty = false := by
      cases hd : detect fs with
      | nil => exact absurd hd h
      | cons a l => rfl
    have hkey : run_hooks w fs envOf = Except.ok 0 ↔
        ((detect fs).map (fun lang =>
          (lang, (verify (envOf lang) (Hook.get w lang)).result))).all resultOk = true := by
      rw [run_hooks]
      simp only [hne, Bool.false_eq_true, if_false, foldl_globalStep, Bool.true_and]
      cases hall : ((detect fs).map (fun lang =>
          (lang, (verify (envOf lang) (Hook.get w lang)).result))).all resultOk <;>
        simp [hall]
    rw [hkey, List.all_eq_true]
    constructor
    · intro hall lang hmem
      exact (resultOk_iff lang _).mp
        (hall _ (List.mem_map.mpr ⟨lang, hmem, rfl⟩))
    · intro hforall r hr
      rcases List.mem_map.mp hr with ⟨lang, hmem, rfl⟩
      exact (resultOk_iff lang _).mpr (hforall lang hmem)

/-- Witness for claim C5: an empty working directory yields the fatal
no-language error, and a directory containing only go.mod, with both Go
hook commands exiting 0, yields Ok(0). -/
theorem C5_run_hooks_witness :
    run_hooks false emptyFs (fun _ => allOk) = Except.error "No language detected" ∧
    run_hooks false goFs (fun _ => allOk) = Except.ok 0 := by
  constructor
  · exact (C5_run_hooks_global_verdict false emptyFs (fun _ => allOk)).1 rfl
  · refine ((C5_run_hooks_global_verdict false goFs (fun _ => allOk)).2
      (by decide)).mpr ?_
    intro lang hmem
    have hd : detect goFs = [Language.Go] := by decide
    rw [hd] at hmem
    have hl : lang = Language.Go := by simpa using hmem
    subst hl
    exact ⟨0, rfl⟩

/-- Claim C8, counterexample: in an environment in which every glob
expansion returns an error while a regular file literally named *.cabal
exists, the Haskell glob rule is not swallowed into contributing nothing:
the let-chain falls through to the plain-filename branch, which finds the
file named like the pattern and records a Haskell detection.  The claim
as stated demands that a rule whose glob errors contribute no detection,
so the scan should have been empty here. -/
theorem C8_glob_error_detection :
    detect globErrFs = [Language.Haskell] ∧
    detect globErrFs ≠ ([] : List Language) := by
  refine ⟨rfl, ?_⟩
  decide

/-- Claim C8 (amended): detect examines the rules in registry order and
equals the concatenation of the per-rule detections, where a plain
filename rule detects iff the file is regular, a CSharp or Haskell rule
with a successful glob expansion detects once per matching regular file
(zero matches contribute nothing), and a CSharp or Haskell rule whose
glob expansion errors does not abort the scan but falls back to the plain
filename test on the literal pattern string. -/
theorem C8_detect_amended (env : DetectEnv) :
    detect env = specDetect env LANGUAGES :=
  detect_eq_specDetect env

/-- Claim C9: whenever the CSharp and Haskell glob expansions succeed,
the number of CSharp detections equals the number of csproj entries that
are regular files and the number of Haskell detections equals the number
of cabal entries that are regular files, so an ecosystem whose glob
matches several files appears several times in the returned sequence and
callers receive the duplicates without dedup. -/
theorem C9_duplicate_detections (env : DetectEnv)
    (csFiles hsFiles : List (Except Unit String))
    (hcs : env.glob CS_PROJ = Except.ok csFiles)
    (hhs : env.glob HASKELL_FILE = Except.ok hsFiles) :
    List.count Language.CSharp (detect env) =
      (csFiles.filter (globEntryIsFile env)).length ∧
    List.count Language.Haskell (detect env) =
      (hsFiles.filter (globEntryIsFile env)).length := by
  rw [detect_eq_specDetect]
  have hcsRule : specRuleDetections env (Language.CSharp, CS_PROJ) =
      (csFiles.filter (globEntryIsFile env)).map (fun _ => Language.CSharp) := by
    simp [specRuleDetections, hcs]
  have hhsRule : specRuleDetections env (Language.Haskell, HASKELL_FILE) =
      (hsFiles.filter (globEntryIsFile env)).map (fun _ => Language.Haskell) := by
    simp [specRuleDetections, hhs]
  constructor
  · simp only [LANGUAGES, specDetect, List.count_append, hcsRule]
    rw [count_const_map]
    repeat rw [count_specRule_ne env _ Language.CSharp (by decide)]
    simp
  · simp only [LANGUAGES, specDetect, List.count_append, hhsRule]
    rw [count_const_map]
    repeat rw [count_specRule_ne env _ Language.Haskell (by decide)]
    simp

/-- Witness for claim C9: with two csproj files and two cabal files both
matched by successful glob expansions, CSharp and Haskell each appear
twice in the detection sequence. -/
theorem C9_duplicates_witness :
    List.count Language.CSharp (detect dupFs) = 2 ∧
    List.count Language.Haskell (detect dupFs) = 2 := by
  have h := C9_duplicate_detections dupFs
    [Except.ok "a.csproj", Except.ok "b.csproj"]
    [Except.ok "x.cabal", Except.ok "y.cabal"] rfl rfl
  exact ⟨h.1.trans (by decide), h.2.trans (by decide)⟩

/-- Claim C10, counterexample: the one-element hook list whose hook
carries the Unknown language is non-empty, yet verify creates zero log
files for it instead of one stdout and one stderr file, refuting the
claim for arbitrary non-empty hook lists. -/
theorem C10_unknown_hook_no_files :
    [hookB].length = 1 ∧
    (verify allOk [hookB]).files = [] ∧
    (verify allOk [hookB]).result = Except.ok (true, 0) :=
  ⟨rfl, rfl, rfl⟩

/-- Claim C10 (amended): for a non-empty hook list whose first hook
carries a known language, when every directory and log-file creation
succeeds, verify creates exactly one stdout and one stderr log file,
named after the hook log filename, for every hook whose language is
known, and skips hooks tagged Unknown; in particular the number of log
files created is twice the number of known-language hooks. -/
theorem C10_log_files_amended (env : Env) (first : Hook) (rest : List Hook)
    (hU : first.language ≠ Language.Unknown)
    (hdir : ∀ p, env.dirOk p = true)
    (hout : ∀ j, env.outFileOk j = true)
    (herr : ∀ j, env.errFileOk j = true) :
    (verify env (first :: rest)).files =
      specLogFiles ("breathes/" ++ first.language.display ++ "/stdout")
        ("breathes/" ++ first.language.display ++ "/stderr") (first :: rest) ∧
    (verify env (first :: rest)).files.length =
      2 * ((first :: rest).filter nonUnknown).length := by
  obtain ⟨h1, h2, -⟩ := verifyLoop_fs_ok env
    ("breathes/" ++ first.language.display ++ "/stdout")
    ("breathes/" ++ first.language.display ++ "/stderr") hout herr
    (first :: rest) 0 { status := [], files := [], ran := [], elapsed := 0 }
  have hfiles : (verify env (first :: rest)).files =
      specLogFiles ("breathes/" ++ first.language.display ++ "/stdout")
        ("breathes/" ++ first.language.display ++ "/stderr") (first :: rest) := by
    simp only [verify, hdir, hU, if_true, if_false, ite_true, ite_false, h1]
    simpa using h2
  exact ⟨hfiles, by rw [hfiles, specLogFiles_length]⟩

/-- Witness for the amended claim C10: the list of one Go hook followed by
one Unknown hook creates exactly the two log files of the Go hook. -/
theorem C10_log_files_witness :
    (verify allOk (hookA :: [hookB])).files =
      specLogFiles ("breathes/" ++ hookA.language.display ++ "/stdout")
        ("breathes/" ++ hookA.language.display ++ "/stderr") (hookA :: [hookB]) ∧
    (verify allOk (hookA :: [hookB])).files.length =
      2 * ((hookA :: [hookB]).filter nonUnknown).length :=
  C10_log_files_amended allOk hookA [hookB] (by decide)
    (fun _ => rfl) (fun _ => rfl) (fun _ => rfl)

end Breathes
